import Mathlib

/-!
Shallow embedding of the mail relay / sync bridge in src/index.js.

Strings from the JavaScript side (header values, ids, SQL TEXT columns)
are modelled as lists of characters, so that the lexicographic order used
by the relational store on TEXT columns is the linear order on List Char.
Timestamps are modelled as natural numbers (ISO rendering is injective,
so nothing is lost).  External effects (the Gmail transport, the change
feed, the two stores) are modelled by oracles carried in an environment
record: an oracle says whether a given call succeeds and what it returns;
a failing call is the JavaScript promise rejection at that point.
-/

abbrev Str := List Char

/-- A Gmail message as assembled by fetchLastMonthEmails / fetchNewEmails:
each header is present or null, and the historyId marker may be null. -/
structure GmailMessage where
  id : Str
  threadId : Option Str
  historyId : Option Str
  fromAddr : Option Str
  subject : Option Str
  date : Option Str
  snippet : Option Str
deriving DecidableEq

/-- A row of the relational table `emails` (id TEXT PRIMARY KEY). -/
structure EmailRow where
  id : Str
  fromEmail : Str
  toEmail : Str
  subject : Option Str
  date : Nat
  snippet : Option Str
deriving DecidableEq

/-- A document of the Firestore collection `inbox`, keyed by message id. -/
structure InboxDoc where
  id : Str
  fromAddr : Str
  toAddr : Str
  subject : Option Str
  message : Option Str
  receivedAt : Nat
deriving DecidableEq

/-- A row of the relational table `sent_emails`; `id` is the SERIAL column
assigned by the store, not chosen by the application. -/
structure SentRow where
  id : Nat
  name : Option Str
  email : Str
  subject : Str
  message : Str
  filename : Option Str
deriving DecidableEq

/-- A document of the Firestore collection `sent_emails`, keyed by the
application-generated random id. -/
structure SentDoc where
  id : Str
  fromAddr : Str
  toAddr : Str
  subject : Str
  message : Str
  sentAt : Nat
deriving DecidableEq

/-- The two stores together: `syncState` is the `gmail_sync_state` table
(one TEXT row per appended history id), `emails` and `sentRows` the other
relational tables, `inbox` and `sentDocs` the Firestore collections as
key-value association lists, and `sentSerial` the next SERIAL value of
`sent_emails`. -/
structure DbState where
  syncState : List Str
  emails : List EmailRow
  inbox : List (Str × InboxDoc)
  sentRows : List SentRow
  sentSerial : Nat
  sentDocs : List (Str × SentDoc)
deriving DecidableEq

/-- The empty database right after table creation. -/
def dbEmpty : DbState := ⟨[], [], [], [], 1, []⟩

/-- JavaScript "needle is a prefix of hay" on character lists. -/
def leadMatch : Str → Str → Bool
  | [], _ => true
  | _ :: _, [] => false
  | a :: as, b :: bs => a == b && leadMatch as bs

/-- JavaScript `hay.includes(needle)` on character lists: the needle
occurs as a contiguous run somewhere in the hay. -/
def hasSub (needle : Str) : Str → Bool
  | [] => leadMatch needle []
  | c :: t => leadMatch needle (c :: t) || hasSub needle t

/-- SELECT history_id FROM gmail_sync_state ORDER BY history_id DESC
LIMIT 1: the lexicographically largest TEXT value, absent on an empty
table. -/
def latestCursor : List Str → Option Str
  | [] => none
  | h :: t => some (t.foldl max h)

/-- Membership of an id in the `emails` table. -/
def hasId (rows : List EmailRow) (i : Str) : Bool :=
  rows.any fun r => r.id == i

/-- INSERT ... ON CONFLICT (id) DO NOTHING on the `emails` table. -/
def insertEmailIfAbsent (rows : List EmailRow) (r : EmailRow) : List EmailRow :=
  if hasId rows r.id then rows else rows ++ [r]

/-- Membership of a key in a Firestore collection. -/
def hasKey {α : Type} (docs : List (Str × α)) (k : Str) : Bool :=
  docs.any fun p => p.1 == k

/-- Firestore `collection.doc(k).set(v)`: overwrite the document at key
`k` if it exists, otherwise create it. -/
def docSet {α : Type} (docs : List (Str × α)) (k : Str) (v : α) : List (Str × α) :=
  if hasKey docs k then docs.map (fun p => if p.1 == k then (k, v) else p)
  else docs ++ [(k, v)]

/-- INSERT ... ON CONFLICT (history_id) DO NOTHING on gmail_sync_state. -/
def appendCursorIfAbsent (cs : List Str) (v : Str) : List Str :=
  if cs.contains v then cs else cs ++ [v]

/-- Environment of one /read-mails cycle: the mailbox identity, the
current time, the JavaScript Date parser (some t when the text parses to
timestamp t, none when new Date(s) is an Invalid Date), the two feed
calls, and the failure oracles for the per-message store writes and for
the final cursor insert. -/
structure SyncEnv where
  smtpUser : Str
  now : Nat
  parseDate : Str → Option Nat
  fetchNew : Str → Except Str (List GmailMessage)
  fetchMonth : Except Str (List GmailMessage)
  pgInsertFail : Str → Bool
  fsSetFail : Str → Bool
  cursorInsertFail : Bool

/-- The timestamp the handler stores: `e.date ? new Date(e.date) : new
Date()` followed by `.toISOString()`.  A null date yields the current
time; a parseable date yields its timestamp; an unparseable date makes
`.toISOString()` throw a RangeError. -/
def dateValue (env : SyncEnv) : Option Str → Except Str Nat
  | none => .ok env.now
  | some s =>
    match env.parseDate s with
    | some t => .ok t
    | none => .error "Invalid time value".data

/-- The `emails` row built for message `m` with resolved timestamp `ts`. -/
def emailRowOf (env : SyncEnv) (m : GmailMessage) (ts : Nat) : EmailRow :=
  ⟨m.id, m.fromAddr.getD [], env.smtpUser, m.subject, ts, m.snippet⟩

/-- The `inbox` document built for message `m` with resolved timestamp
`ts`. -/
def inboxDocOf (env : SyncEnv) (m : GmailMessage) (ts : Nat) : InboxDoc :=
  ⟨m.id, m.fromAddr.getD [], env.smtpUser, m.subject, m.snippet, ts⟩

/-- The state after both stores accepted message `m` with resolved
timestamp `ts`. -/
def persistState (env : SyncEnv) (s : DbState) (m : GmailMessage) (ts : Nat) : DbState :=
  { s with emails := insertEmailIfAbsent s.emails (emailRowOf env m ts),
           inbox := docSet s.inbox m.id (inboxDocOf env m ts) }

/-- One iteration of the /read-mails loop body for message `m`: skip when
the sender is null, empty or contains the mailbox's own address; otherwise
render the timestamp (which throws on an unparseable date), insert into
`emails` (ON CONFLICT DO NOTHING), set the `inbox` document, and report
whether the message was pushed onto syncedEmails.  Any throw aborts the
surrounding cycle; the error carries the state at the moment of the
throw, so writes already performed stay visible (a failed insert writes
nothing, and a document-set failure happens after the relational insert
succeeded). -/
def processMessage (env : SyncEnv) (s : DbState) (m : GmailMessage) :
    Except (Str × DbState) (DbState × Bool) :=
  match m.fromAddr with
  | none => .ok (s, false)
  | some f =>
    if f.isEmpty || hasSub env.smtpUser f then .ok (s, false)
    else
      match dateValue env m.date with
      | .error e => .error (e, s)
      | .ok ts =>
        if env.pgInsertFail m.id then .error ("pg insert failed".data, s)
        else if env.fsSetFail m.id then
          .error ("doc set failed".data,
            { s with emails := insertEmailIfAbsent s.emails (emailRowOf env m ts) })
        else .ok (persistState env s m ts, true)

/-- The /read-mails loop over the fetched list, accumulating the
syncedEmails list in input order; the first throw aborts the cycle. -/
def processList (env : SyncEnv) : DbState → List GmailMessage →
    Except (Str × DbState) (DbState × List GmailMessage)
  | s, [] => .ok (s, [])
  | s, m :: ms =>
    match processMessage env s m with
    | .error e => .error e
    | .ok (s1, b) =>
      match processList env s1 ms with
      | .error e => .error e
      | .ok (s2, synced) => .ok (s2, if b then m :: synced else synced)

/-- The fetch stage of /read-mails: with a persisted cursor, try the
history fetch and fall back to the 30-day fetch on failure; with no
cursor, go straight to the 30-day fetch (the code throws and catches to
get there).  A fallback failure propagates. -/
def fetchPhase (env : SyncEnv) (s : DbState) : Except Str (List GmailMessage) :=
  match latestCursor s.syncState with
  | some c =>
    match env.fetchNew c with
    | .ok ms => .ok ms
    | .error _ => env.fetchMonth
  | none => env.fetchMonth

/-- The whole /read-mails handler: fetch (with fallback), process every
message, then read the positionally last fetched message's historyId and,
when present, append it to gmail_sync_state; answer with the count and
list of synced messages.  Any uncaught throw is the 500 response, and
the error carries the state at the moment of the throw. -/
def readMails (env : SyncEnv) (s : DbState) :
    Except (Str × DbState) (DbState × Nat × List GmailMessage) :=
  match fetchPhase env s with
  | .error e => .error (e, s)
  | .ok msgs =>
    match processList env s msgs with
    | .error e => .error e
    | .ok (s1, synced) =>
      match msgs.getLast?.bind (fun m => m.historyId) with
      | some h =>
        if env.cursorInsertFail then .error ("cursor insert failed".data, s1)
        else .ok ({ s1 with syncState := appendCursorIfAbsent s1.syncState h },
                  synced.length, synced)
      | none => .ok (s1, synced.length, synced)

/-- Modelled from the spec: the highest cursor value observed among the
fetched messages' metadata, missing per-message cursors tolerated.  This
is the value the specification says a cycle appends; it is compared with
what readMails actually appends. -/
def specHighestCursor (msgs : List GmailMessage) : Option Str :=
  latestCursor (msgs.filterMap fun m => m.historyId)

/-- JavaScript `v || dflt` on strings: an empty (falsy) value falls back
to the default. -/
def jsOr (v dflt : Str) : Str :=
  if v.isEmpty then dflt else v

/-- The per-row send plan the bulk loop resolves before the try block. -/
structure Plan where
  name : Option Str
  email : Str
  subject : Str
  message : Str
deriving DecidableEq

/-- Row-shape resolution of the /api/import-emails loop: one field is the
recipient alone, two fields are name and recipient, four or more fields
are name, recipient and per-row subject and body with fallback to the
shared values when blank; any other field count leaves the recipient
null.  A null or blank recipient makes the row skip (`continue`). -/
def resolveRow (cs cm : Str) (row : List Str) : Option Plan :=
  let ne : Option Str × Str :=
    if row.length = 1 then (none, row.getD 0 [])
    else if row.length = 2 then (some (row.getD 0 []), row.getD 1 [])
    else if 4 ≤ row.length then (some (row.getD 0 []), row.getD 1 [])
    else (none, [])
  let subject := if 4 ≤ row.length then jsOr (row.getD 2 []) cs else cs
  let message := if 4 ≤ row.length then jsOr (row.getD 3 []) cm else cm
  if ne.2.isEmpty then none else some ⟨ne.1, ne.2, subject, message⟩

/-- Environment of one /api/import-emails run: identity, clock, the
uploaded file's name, the random id drawn at each row, and per-row-index
failure oracles for the transport send, the relational insert and the
document set. -/
structure BulkEnv where
  smtpUser : Str
  now : Nat
  fileName : Str
  genId : Nat → Str
  sendFail : Nat → Bool
  pgFail : Nat → Bool
  fsFail : Nat → Bool

/-- The Firestore `sent_emails` document built for a dispatched row. -/
def sentDocOf (fromAddr toAddr subject message : Str) (i : Str) (now : Nat) : SentDoc :=
  ⟨i, fromAddr, toAddr, subject, message, now⟩

/-- One iteration of the bulk loop at row index `idx`: resolve the row
(an unresolvable row is skipped silently), then inside the try block send,
insert the relational `sent_emails` row (SERIAL id), and set the document
under a fresh random id; the first throw pushes the recipient onto
failedEmails and the loop continues.  The result is the new state, the
recipients attempted (the send was called) and the recipients pushed onto
failedEmails by this row. -/
def dispatchRow (env : BulkEnv) (cs cm : Str) (idx : Nat) (s : DbState)
    (row : List Str) : DbState × List Str × List Str :=
  match resolveRow cs cm row with
  | none => (s, [], [])
  | some p =>
    if env.sendFail idx then (s, [p.email], [p.email])
    else if env.pgFail idx then (s, [p.email], [p.email])
    else
      let s1 := { s with
        sentRows := s.sentRows ++
          [⟨s.sentSerial, p.name, p.email, p.subject, p.message, some env.fileName⟩],
        sentSerial := s.sentSerial + 1 }
      if env.fsFail idx then (s1, [p.email], [p.email])
      else
        let d := sentDocOf env.smtpUser p.email p.subject p.message (env.genId idx) env.now
        ({ s1 with sentDocs := docSet s1.sentDocs (env.genId idx) d }, [p.email], [])

/-- The bulk loop over the data rows starting at index `idx`, threading
the state and concatenating the attempted and failed recipient lists in
input order. -/
def dispatchRows (env : BulkEnv) (cs cm : Str) :
    Nat → DbState → List (List Str) → DbState × List Str × List Str
  | _, s, [] => (s, [], [])
  | idx, s, row :: rest =>
    let r1 := dispatchRow env cs cm idx s row
    let r2 := dispatchRows env cs cm (idx + 1) r1.1 rest
    (r2.1, r1.2.1 ++ r2.2.1, r1.2.2 ++ r2.2.2)

/-- The valid rows of a data-row list, paired with their row index and
resolved plan, in input order. -/
def indexedPlans (cs cm : Str) : Nat → List (List Str) → List (Nat × Plan)
  | _, [] => []
  | i, row :: rest =>
    match resolveRow cs cm row with
    | none => indexedPlans cs cm (i + 1) rest
    | some p => (i, p) :: indexedPlans cs cm (i + 1) rest

/-- Whether the send-or-persist step of the row at index `i` raises. -/
def rowRaised (env : BulkEnv) (i : Nat) : Bool :=
  env.sendFail i || env.pgFail i || env.fsFail i

/-- Environment of one /api/send-emails request: the request fields, the
drawn random id and the failure oracles for the three effectful steps in
order (transport send, relational insert, document set). -/
structure SendEnv where
  smtpUser : Str
  now : Nat
  genId : Str
  name : Option Str
  email : Str
  subject : Str
  message : Str
  filename : Option Str
  sendFail : Bool
  pgFail : Bool
  fsFail : Bool

/-- The /api/send-emails handler: send, then insert the relational
`sent_emails` row (SERIAL id), then set the Firestore document under the
generated random id.  A throw at any step is caught and answered as a
500; the error carries the state at the moment of the throw, so the
effect of steps already performed is visible. -/
def sendSingle (env : SendEnv) (s : DbState) :
    Except (Str × DbState) (DbState × SentDoc) :=
  if env.sendFail then .error ("send failed".data, s)
  else if env.pgFail then .error ("pg insert failed".data, s)
  else
    let s1 := { s with
      sentRows := s.sentRows ++
        [⟨s.sentSerial, env.name, env.email, env.subject, env.message, env.filename⟩],
      sentSerial := s.sentSerial + 1 }
    let d : SentDoc := ⟨env.genId, env.smtpUser, env.email, env.subject, env.message, env.now⟩
    if env.fsFail then .error ("doc set failed".data, s1)
    else .ok ({ s1 with sentDocs := docSet s1.sentDocs env.genId d }, d)

/-- Decimal digit as a character. -/
def digitChar (n : Nat) : Char := Char.ofNat (48 + n)

/-- Decimal rendering of a natural number, fuel-driven. -/
def natStrGo : Nat → Nat → Str
  | 0, _ => []
  | fuel + 1, n =>
    if n < 10 then [digitChar n]
    else natStrGo fuel (n / 10) ++ [digitChar (n % 10)]

/-- Decimal rendering of a natural number as a character list. -/
def natStr (n : Nat) : Str := natStrGo (n + 1) n

/-- Modelled from the spec: the claimed link between the two copies of a
sent record, namely that the relational row and the document carry the
same generated id (the row's id rendered as text equals the document's
id). -/
def specSharedId (row : SentRow) (doc : SentDoc) : Prop :=
  natStr row.id = doc.id

instance instDecSpecSharedId (row : SentRow) (doc : SentDoc) :
    Decidable (specSharedId row doc) :=
  inferInstanceAs (Decidable (natStr row.id = doc.id))


/-- Whether a sync cycle answered 200. -/
def isOkSync : Except (Str × DbState) (DbState × Nat × List GmailMessage) → Bool
  | .ok _ => true
  | .error _ => false

/-- The latest persisted cursor after a sync cycle result, none when the
cycle failed. -/
def cursorAfter : Except (Str × DbState) (DbState × Nat × List GmailMessage) → Option Str
  | .ok r => latestCursor r.1.syncState
  | .error _ => none

/-- Fixture: a message from alice carrying feed cursor 5. -/
def msgA5 : GmailMessage :=
  ⟨"A".data, none, some "5".data, some "alice@example.com".data,
   some "S1".data, none, some "sn1".data⟩

/-- Fixture: a message from bob carrying feed cursor 3, positionally
after the cursor-5 message. -/
def msgB3 : GmailMessage :=
  ⟨"B".data, none, some "3".data, some "bob@example.com".data,
   some "S2".data, none, some "sn2".data⟩

/-- Fixture: the fetched list whose highest cursor (5) is not the
positionally last one (3). -/
def msgsC1 : List GmailMessage := [msgA5, msgB3]

/-- Fixture environment for the cursor counterexample: no prior cursor,
the 30-day fetch returns msgsC1, every store write succeeds. -/
def envC1 : SyncEnv :=
  ⟨"me@gmail.com".data, 1000, fun _ => none, fun _ => .error "unused".data,
   .ok msgsC1, fun _ => false, fun _ => false, false⟩

/-- Order on optional cursors: an absent cursor is below everything, and
present cursors compare in the store's TEXT order. -/
def cursorLe : Option Str → Option Str → Prop
  | none, _ => True
  | some _, none => False
  | some a, some b => a ≤ b

instance instDecCursorLe (a b : Option Str) : Decidable (cursorLe a b) :=
  match a, b with
  | none, _ => isTrue trivial
  | some _, none => isFalse fun h => h
  | some x, some y => inferInstanceAs (Decidable (x ≤ y))

theorem cursorLe_refl (a : Option Str) : cursorLe a a := by
  cases a with
  | none => trivial
  | some x => exact le_refl x

theorem leadMatch_self (l : Str) : leadMatch l l = true := by
  induction l with
  | nil => rfl
  | cons a as ih => simp [leadMatch, ih]

theorem hasSub_self (l : Str) : hasSub l l = true := by
  cases l with
  | nil => rfl
  | cons c t => simp [hasSub, leadMatch_self]

theorem latestCursor_append (cs : List Str) (v : Str) :
    cursorLe (latestCursor cs) (latestCursor (cs ++ [v])) := by
  cases cs with
  | nil => trivial
  | cons h t =>
    simp only [latestCursor, List.cons_append]
    show t.foldl max h ≤ (t ++ [v]).foldl max h
    rw [List.foldl_append]
    exact le_max_left _ _

theorem appendCursor_mono (cs : List Str) (v : Str) :
    cursorLe (latestCursor cs) (latestCursor (appendCursorIfAbsent cs v)) := by
  unfold appendCursorIfAbsent
  split
  case isTrue => exact cursorLe_refl _
  case isFalse => exact latestCursor_append cs v

theorem processMessage_syncState (env : SyncEnv) (s : DbState) (m : GmailMessage)
    (s1 : DbState) (b : Bool) (h : processMessage env s m = .ok (s1, b)) :
    s1.syncState = s.syncState := by
  unfold processMessage at h
  split at h
  · cases h
    rfl
  · split at h
    · cases h
      rfl
    · split at h
      · cases h
      · split at h
        · cases h
        · split at h
          · cases h
          · cases h
            rfl

theorem processList_syncState (env : SyncEnv) :
    ∀ (msgs : List GmailMessage) (s s1 : DbState) (sy : List GmailMessage),
      processList env s msgs = .ok (s1, sy) → s1.syncState = s.syncState := by
  intro msgs
  induction msgs with
  | nil =>
    intro s s1 sy h
    cases h
    rfl
  | cons m ms ih =>
    intro s s1 sy h
    unfold processList at h
    cases hm : processMessage env s m with
    | error e =>
      simp only [hm] at h
      cases h
    | ok r =>
      obtain ⟨sm, b⟩ := r
      simp only [hm] at h
      cases hl : processList env sm ms with
      | error e =>
        simp only [hl] at h
        cases h
      | ok r2 =>
        obtain ⟨s2, sy2⟩ := r2
        simp only [hl, Except.ok.injEq, Prod.mk.injEq] at h
        obtain ⟨h1, h2⟩ := h
        subst h1
        calc s2.syncState = sm.syncState := ih sm s2 sy2 hl
          _ = s.syncState := processMessage_syncState env s m sm b hm

theorem processList_append_error (env : SyncEnv) :
    ∀ (pre : List GmailMessage) (m : GmailMessage) (post : List GmailMessage)
      (s s1 : DbState) (sy : List GmailMessage) (e : Str × DbState),
      processList env s pre = .ok (s1, sy) →
      processMessage env s1 m = .error e →
      processList env s (pre ++ m :: post) = .error e := by
  intro pre
  induction pre with
  | nil =>
    intro m post s s1 sy e hpre hm
    simp only [processList, Except.ok.injEq, Prod.mk.injEq] at hpre
    obtain ⟨h1, h2⟩ := hpre
    subst h1
    simp only [List.nil_append, processList, hm]
  | cons p t ih =>
    intro m post s s1 sy e hpre hm
    simp only [List.cons_append, processList] at hpre ⊢
    cases hp : processMessage env s p with
    | error e2 =>
      simp only [hp] at hpre
      cases hpre
    | ok r =>
      obtain ⟨sp, b⟩ := r
      simp only [hp] at hpre ⊢
      cases hl : processList env sp t with
      | error e2 =>
        simp only [hl] at hpre
        cases hpre
      | ok r2 =>
        obtain ⟨s2, sy2⟩ := r2
        simp only [hl, Except.ok.injEq, Prod.mk.injEq] at hpre
        obtain ⟨h1, h2⟩ := hpre
        subst h1
        simp only [List.append_eq]
        rw [ih m post sp s2 sy2 e hl hm]

instance instDecEqExcept {A B : Type} [DecidableEq A] [DecidableEq B] :
    DecidableEq (Except A B) := fun a b =>
  match a, b with
  | .ok x, .ok y => decidable_of_iff (x = y) (by simp)
  | .error x, .error y => decidable_of_iff (x = y) (by simp)
  | .ok _, .error _ => isFalse (by simp)
  | .error _, .ok _ => isFalse (by simp)

/-- C1 counterexample: with no prior cursor and a feed returning two
messages whose cursors are 5 then 3, the cycle succeeds but the persisted
latest cursor is 3 — the positionally last message's cursor — while the
highest cursor observed among the fetched messages is 5. -/
theorem appendedCursor_cex :
    isOkSync (readMails envC1 dbEmpty) = true ∧
    envC1.fetchMonth = .ok msgsC1 ∧
    cursorAfter (readMails envC1 dbEmpty) = some "3".data ∧
    specHighestCursor msgsC1 = some "5".data ∧
    cursorAfter (readMails envC1 dbEmpty) ≠ specHighestCursor msgsC1 := by
  decide

/-- C1 amended: a successful sync cycle never regresses the persisted
latest cursor (the store reads the maximum TEXT value and values are only
appended), and the value appended — when one is appended at all — is the
positionally last fetched message's cursor, not necessarily the highest
observed. -/
theorem cursorAppend_amended (env : SyncEnv) (s s1 : DbState) (n : Nat)
    (l : List GmailMessage)
    (h : readMails env s = .ok (s1, n, l)) :
    cursorLe (latestCursor s.syncState) (latestCursor s1.syncState) ∧
    (s1.syncState = s.syncState ∨
      ∃ msgs hv, fetchPhase env s = .ok msgs ∧
        msgs.getLast?.bind (fun m => m.historyId) = some hv ∧
        s1.syncState = appendCursorIfAbsent s.syncState hv) := by
  unfold readMails at h
  cases hf : fetchPhase env s with
  | error e =>
    simp only [hf] at h
    cases h
  | ok msgs =>
    simp only [hf] at h
    cases hp : processList env s msgs with
    | error e =>
      simp only [hp] at h
      cases h
    | ok r =>
      obtain ⟨s2, sy⟩ := r
      have hsync : s2.syncState = s.syncState := processList_syncState env msgs s s2 sy hp
      simp only [hp] at h
      cases hl : msgs.getLast?.bind (fun m => m.historyId) with
      | none =>
        simp only [hl, Except.ok.injEq, Prod.mk.injEq] at h
        obtain ⟨h1, _, _⟩ := h
        subst h1
        refine ⟨?_, Or.inl hsync⟩
        rw [hsync]
        exact cursorLe_refl _
      | some hv =>
        simp only [hl] at h
        by_cases hc : env.cursorInsertFail = true
        · rw [if_pos hc] at h
          cases h
        · rw [if_neg hc] at h
          simp only [Except.ok.injEq, Prod.mk.injEq] at h
          obtain ⟨h1, _, _⟩ := h
          subst h1
          constructor
          · show cursorLe (latestCursor s.syncState)
              (latestCursor (appendCursorIfAbsent s2.syncState hv))
            rw [hsync]
            exact appendCursor_mono s.syncState hv
          · right
            refine ⟨msgs, hv, rfl, hl, ?_⟩
            show appendCursorIfAbsent s2.syncState hv = appendCursorIfAbsent s.syncState hv
            rw [hsync]

/-- Fixture: the state after the successful counterexample cycle. -/
def s1C1 : DbState :=
  ⟨["3".data],
   [emailRowOf envC1 msgA5 1000, emailRowOf envC1 msgB3 1000],
   [("A".data, inboxDocOf envC1 msgA5 1000), ("B".data, inboxDocOf envC1 msgB3 1000)],
   [], 1, []⟩

/-- C1 amended, witnessed on the concrete two-message cycle. -/
theorem cursorAppend_amended_wit :
    cursorLe (latestCursor dbEmpty.syncState) (latestCursor s1C1.syncState) ∧
    (s1C1.syncState = dbEmpty.syncState ∨
      ∃ msgs hv, fetchPhase envC1 dbEmpty = .ok msgs ∧
        msgs.getLast?.bind (fun m => m.historyId) = some hv ∧
        s1C1.syncState = appendCursorIfAbsent dbEmpty.syncState hv) :=
  cursorAppend_amended envC1 dbEmpty s1C1 2 msgsC1 (by decide)

/-- Fixture environment for the persistence-failure counterexample: the
30-day fetch returns the two-message list and the relational insert
throws for the first message only. -/
def envC2 : SyncEnv :=
  ⟨"me@gmail.com".data, 1000, fun _ => none, fun _ => .error "unused".data,
   .ok msgsC1, fun i => i == "A".data, fun _ => false, false⟩

/-- C2 counterexample: the relational insert fails for the first of two
fetched messages; instead of logging, excluding the message and carrying
on, the whole cycle aborts with a 500 — the second message is never
processed and the database is untouched. -/
theorem persistFailure_cex :
    envC2.fetchMonth = .ok msgsC1 ∧
    envC2.pgInsertFail msgA5.id = true ∧
    envC2.pgInsertFail msgB3.id = false ∧
    readMails envC2 dbEmpty = .error ("pg insert failed".data, dbEmpty) := by
  decide

/-- C2 amended: the per-message loop of /read-mails has no per-item
exception isolation — the first persistence failure of any fetched
message propagates and fails the whole cycle, regardless of how many
messages follow. -/
theorem persistAbort_amended (env : SyncEnv) (s : DbState)
    (msgs pre post : List GmailMessage) (m : GmailMessage)
    (s1 : DbState) (sy : List GmailMessage) (e : Str × DbState)
    (hf : fetchPhase env s = .ok msgs) (hsp : msgs = pre ++ m :: post)
    (hpre : processList env s pre = .ok (s1, sy))
    (hm : processMessage env s1 m = .error e) :
    readMails env s = .error e := by
  unfold readMails
  subst hsp
  simp only [hf]
  simp only [processList_append_error env pre m post s s1 sy e hpre hm]

/-- C2 amended, witnessed on the concrete failing cycle. -/
theorem persistAbort_amended_wit :
    readMails envC2 dbEmpty = .error ("pg insert failed".data, dbEmpty) :=
  persistAbort_amended envC2 dbEmpty msgsC1 [] [msgB3] msgA5 dbEmpty []
    ("pg insert failed".data, dbEmpty) (by decide) rfl rfl (by decide)

/-- Fixture: a message whose date header is present but unparseable. -/
def msgBadDate : GmailMessage :=
  ⟨"C".data, none, some "7".data, some "carol@example.com".data,
   some "S3".data, some "not-a-date".data, some "sn3".data⟩

/-- Fixture environment for the bad-date counterexample: the 30-day
fetch returns only the bad-date message and every store write succeeds. -/
def envC3 : SyncEnv :=
  ⟨"me@gmail.com".data, 1000, fun _ => none, fun _ => .error "unused".data,
   .ok [msgBadDate], fun _ => false, fun _ => false, false⟩

/-- C3 counterexample: a message with an unparseable date is not stored
with the current time — date.toISOString() throws on the Invalid Date and
the whole cycle fails, with nothing persisted. -/
theorem dateFallback_cex :
    msgBadDate.date = some "not-a-date".data ∧
    envC3.parseDate "not-a-date".data = none ∧
    readMails envC3 dbEmpty = .error ("Invalid time value".data, dbEmpty) := by
  decide

/-- C3 amended: for a non-skipped message the stored timestamp is the
parsed date when the date header is present and parseable, and the
current time when it is absent; a present but unparseable date raises
and aborts the cycle instead of falling back to the current time. -/
theorem dateResolution_amended (env : SyncEnv) (s : DbState) (m : GmailMessage)
    (f : Str) (hf : m.fromAddr = some f) (hne : f.isEmpty = false)
    (hni : hasSub env.smtpUser f = false)
    (hpg : env.pgInsertFail m.id = false) (hfs : env.fsSetFail m.id = false) :
    (m.date = none → processMessage env s m = .ok (persistState env s m env.now, true)) ∧
    (∀ d t, m.date = some d → env.parseDate d = some t →
      processMessage env s m = .ok (persistState env s m t, true)) ∧
    (∀ d, m.date = some d → env.parseDate d = none →
      processMessage env s m = .error ("Invalid time value".data, s)) := by
  refine ⟨?_, ?_, ?_⟩
  · intro hd
    simp [processMessage, hf, hne, hni, dateValue, hd, hpg, hfs]
  · intro d t hd hp
    simp [processMessage, hf, hne, hni, dateValue, hd, hp, hpg, hfs]
  · intro d hd hp
    simp [processMessage, hf, hne, hni, dateValue, hd, hp]

/-- Fixture: a message with no date header. -/
def mNoDate : GmailMessage :=
  ⟨"D1".data, none, none, some "dana@example.com".data, some "S4".data, none, none⟩

/-- Fixture: a message whose date header parses to timestamp 777. -/
def mGoodDate : GmailMessage :=
  ⟨"D2".data, none, none, some "erin@example.com".data, some "S5".data,
   some "2024-01-01".data, none⟩

/-- Fixture environment whose date parser accepts exactly 2024-01-01. -/
def envC3w : SyncEnv :=
  ⟨"me@gmail.com".data, 1000,
   fun d => if d == "2024-01-01".data then some 777 else none,
   fun _ => .error "unused".data, .ok [], fun _ => false, fun _ => false, false⟩

/-- C3 amended, witnessed on the three concrete date shapes. -/
theorem dateResolution_amended_wit :
    processMessage envC3w dbEmpty mNoDate =
      .ok (persistState envC3w dbEmpty mNoDate 1000, true) ∧
    processMessage envC3w dbEmpty mGoodDate =
      .ok (persistState envC3w dbEmpty mGoodDate 777, true) ∧
    processMessage envC3 dbEmpty msgBadDate =
      .error ("Invalid time value".data, dbEmpty) :=
  ⟨(dateResolution_amended envC3w dbEmpty mNoDate "dana@example.com".data
      rfl (by decide) (by decide) rfl rfl).1 rfl,
   (dateResolution_amended envC3w dbEmpty mGoodDate "erin@example.com".data
      rfl (by decide) (by decide) rfl rfl).2.1 "2024-01-01".data 777 rfl (by decide),
   (dateResolution_amended envC3 dbEmpty msgBadDate "carol@example.com".data
      rfl (by decide) (by decide) rfl rfl).2.2 "not-a-date".data rfl rfl⟩

/-- Fixture environment for the fallback counterexample: no prior
cursor, the 30-day fetch succeeds with one message, and that message's
relational insert throws. -/
def envC4 : SyncEnv :=
  ⟨"me@gmail.com".data, 1000, fun _ => none, fun _ => .error "unused".data,
   .ok [msgA5], fun i => i == "A".data, fun _ => false, false⟩

/-- C4 counterexample: the fallback fetch itself succeeds, yet the cycle
still fails — a per-message persistence failure also makes the cycle
fail, so the fallback fetch is not the only fatal point. -/
theorem fallbackOnly_cex :
    latestCursor dbEmpty.syncState = none ∧
    envC4.fetchMonth = .ok [msgA5] ∧
    readMails envC4 dbEmpty = .error ("pg insert failed".data, dbEmpty) := by
  decide

/-- C4 amended: when the cursor fetch fails or no prior cursor exists,
the cycle uses the recent-window fallback fetch; a fallback-fetch failure
fails the cycle, and when the fallback succeeds and the per-message
processing and cursor append raise nothing, the cycle succeeds with the
synced count. -/
theorem fallback_amended (env : SyncEnv) (s : DbState)
    (hc : latestCursor s.syncState = none ∨
      ∃ c er, latestCursor s.syncState = some c ∧ env.fetchNew c = .error er) :
    fetchPhase env s = env.fetchMonth ∧
    (∀ e, env.fetchMonth = .error e → readMails env s = .error (e, s)) ∧
    (∀ msgs s1 sy, env.fetchMonth = .ok msgs →
      processList env s msgs = .ok (s1, sy) → env.cursorInsertFail = false →
      ∃ s2, readMails env s = .ok (s2, sy.length, sy)) := by
  have hfp : fetchPhase env s = env.fetchMonth := by
    unfold fetchPhase
    rcases hc with hn | ⟨c, er, hsc, hfn⟩
    · simp only [hn]
    · simp only [hsc, hfn]
  refine ⟨hfp, ?_, ?_⟩
  · intro e he
    unfold readMails
    simp only [hfp, he]
  · intro msgs s1 sy hm hp hcf
    unfold readMails
    simp only [hfp, hm, hp]
    cases hl : msgs.getLast?.bind (fun m => m.historyId) with
    | none =>
      exact ⟨s1, rfl⟩
    | some hv =>
      simp only [hcf]
      exact ⟨_, rfl⟩

/-- Fixture: the database after the two counterexample messages were
persisted but before the cursor append. -/
def sPersist2 : DbState :=
  ⟨[], [emailRowOf envC1 msgA5 1000, emailRowOf envC1 msgB3 1000],
   [("A".data, inboxDocOf envC1 msgA5 1000), ("B".data, inboxDocOf envC1 msgB3 1000)],
   [], 1, []⟩

/-- Fixture environment whose fallback fetch itself fails. -/
def envC4e : SyncEnv :=
  ⟨"me@gmail.com".data, 1000, fun _ => none, fun _ => .error "unused".data,
   .error "month fetch failed".data, fun _ => false, fun _ => false, false⟩

/-- C4 amended, witnessed on a succeeding fallback cycle and on a
fallback whose own fetch fails. -/
theorem fallback_amended_wit :
    fetchPhase envC1 dbEmpty = envC1.fetchMonth ∧
    (∃ s2, readMails envC1 dbEmpty = .ok (s2, msgsC1.length, msgsC1)) ∧
    readMails envC4e dbEmpty = .error ("month fetch failed".data, dbEmpty) :=
  ⟨(fallback_amended envC1 dbEmpty (Or.inl rfl)).1,
   (fallback_amended envC1 dbEmpty (Or.inl rfl)).2.2 msgsC1 sPersist2 msgsC1
     rfl (by decide) rfl,
   (fallback_amended envC4e dbEmpty (Or.inl rfl)).2.1
     "month fetch failed".data rfl⟩

/-- C5: a message with no sender, or whose sender equals the mailbox's
own outbound identity, is skipped — the loop body leaves both stores
untouched, pushes nothing, and raises nothing.  The code's test is
`includes`, and a string always contains itself, so equality implies the
skip. -/
theorem selfFilter_skip (env : SyncEnv) (s : DbState) (m : GmailMessage)
    (h : m.fromAddr = none ∨ m.fromAddr = some env.smtpUser) :
    processMessage env s m = .ok (s, false) := by
  rcases h with h | h
  · simp [processMessage, h]
  · simp [processMessage, h, hasSub_self]

/-- Fixture: a message sent by the mailbox's own identity. -/
def mSelf : GmailMessage :=
  ⟨"E".data, none, some "9".data, some "me@gmail.com".data, some "S6".data, none, none⟩

/-- Fixture: a message with no From header. -/
def mNoSender : GmailMessage :=
  ⟨"F".data, none, some "9".data, none, some "S7".data, none, none⟩

/-- C5 witnessed on a self-sent message and a sender-less message. -/
theorem selfFilter_skip_wit :
    processMessage envC1 dbEmpty mSelf = .ok (dbEmpty, false) ∧
    processMessage envC1 dbEmpty mNoSender = .ok (dbEmpty, false) :=
  ⟨selfFilter_skip envC1 dbEmpty mSelf (Or.inr rfl),
   selfFilter_skip envC1 dbEmpty mNoSender (Or.inl rfl)⟩

/-- Number of `emails` rows with a given id. -/
def countRowId (rows : List EmailRow) (i : Str) : Nat :=
  (rows.filter fun r => r.id == i).length

/-- Number of documents stored under a given key. -/
def countKey {α : Type} (docs : List (Str × α)) (k : Str) : Nat :=
  (docs.filter fun p => p.1 == k).length

theorem countRowId_eq_zero (rows : List EmailRow) (i : Str)
    (h : hasId rows i = false) : countRowId rows i = 0 := by
  induction rows with
  | nil => rfl
  | cons a t ih =>
    simp only [hasId, List.any_cons, Bool.or_eq_false_iff] at h
    obtain ⟨h1, h2⟩ := h
    simp only [countRowId, List.filter_cons, h1]
    exact ih h2

theorem countKey_eq_zero {α : Type} (docs : List (Str × α)) (k : Str)
    (h : hasKey docs k = false) : countKey docs k = 0 := by
  induction docs with
  | nil => rfl
  | cons a t ih =>
    simp only [hasKey, List.any_cons, Bool.or_eq_false_iff] at h
    obtain ⟨h1, h2⟩ := h
    simp only [countKey, List.filter_cons, h1]
    exact ih h2

theorem docSet_map_id {α : Type} (docs : List (Str × α)) (k : Str) (v : α)
    (h : ∀ p ∈ docs, (p.1 == k) = false) :
    docs.map (fun p => if p.1 == k then (k, v) else p) = docs := by
  induction docs with
  | nil => rfl
  | cons a t ih =>
    simp only [List.map_cons, h a (List.mem_cons_self a t)]
    rw [ih fun p hp => h p (List.mem_cons_of_mem a hp)]
    simp

/-- C6: inbound persistence is idempotent per remote id — with the id
not yet stored, inserting twice is the same as inserting once in both
stores, and each store ends up with exactly one record under that id.
The relational ON CONFLICT DO NOTHING makes the second insert a literal
no-op; the document set overwrites in place, leaving one document. -/
theorem inboundInsert_idem (rows : List EmailRow) (r : EmailRow)
    (docs : List (Str × InboxDoc)) (d : InboxDoc)
    (hr : hasId rows r.id = false) (hd : hasKey docs r.id = false) :
    insertEmailIfAbsent (insertEmailIfAbsent rows r) r = insertEmailIfAbsent rows r ∧
    countRowId (insertEmailIfAbsent (insertEmailIfAbsent rows r) r) r.id = 1 ∧
    docSet (docSet docs r.id d) r.id d = docSet docs r.id d ∧
    countKey (docSet (docSet docs r.id d) r.id d) r.id = 1 := by
  have h1 : insertEmailIfAbsent rows r = rows ++ [r] := by
    simp [insertEmailIfAbsent, hr]
  have h2 : hasId (rows ++ [r]) r.id = true := by
    simp [hasId, List.any_append]
  have h3 : insertEmailIfAbsent (rows ++ [r]) r = rows ++ [r] := by
    simp [insertEmailIfAbsent, h2]
  have hall : ∀ p ∈ docs, (p.1 == r.id) = false := by
    intro p hp
    by_contra hc
    have hpk : (p.1 == r.id) = true := by
      cases hpe : p.1 == r.id with
      | true => rfl
      | false => exact absurd hpe hc
    have : hasKey docs r.id = true := by
      simp only [hasKey, List.any_eq_true]
      exact ⟨p, hp, hpk⟩
    rw [this] at hd
    cases hd
  have h4 : docSet docs r.id d = docs ++ [(r.id, d)] := by
    simp [docSet, hd]
  have h5 : hasKey (docs ++ [(r.id, d)]) r.id = true := by
    simp [hasKey, List.any_append]
  have h6 : docSet (docs ++ [(r.id, d)]) r.id d = docs ++ [(r.id, d)] := by
    simp only [docSet, h5, if_pos, List.map_append, docSet_map_id docs r.id d hall]
    simp
  refine ⟨?_, ?_, ?_, ?_⟩
  · rw [h1, h3]
  · rw [h1, h3]
    have hz := countRowId_eq_zero rows r.id hr
    unfold countRowId at hz ⊢
    simp [List.filter_append, hz]
  · rw [h4, h6]
  · rw [h4, h6]
    have hz := countKey_eq_zero docs r.id hd
    unfold countKey at hz ⊢
    simp [List.filter_append, hz]

/-- Fixture: a concrete inbound row. -/
def r0 : EmailRow := ⟨"A".data, "alice@example.com".data, "me@gmail.com".data, none, 1, none⟩

/-- Fixture: a concrete inbox document. -/
def d0 : InboxDoc := ⟨"A".data, "alice@example.com".data, "me@gmail.com".data, none, none, 1⟩

/-- C6 witnessed on empty stores. -/
theorem inboundInsert_idem_wit :
    insertEmailIfAbsent (insertEmailIfAbsent [] r0) r0 = insertEmailIfAbsent [] r0 ∧
    countRowId (insertEmailIfAbsent (insertEmailIfAbsent [] r0) r0) r0.id = 1 ∧
    docSet (docSet [] r0.id d0) r0.id d0 = docSet [] r0.id d0 ∧
    countKey (docSet (docSet [] r0.id d0) r0.id d0) r0.id = 1 :=
  inboundInsert_idem [] r0 [] d0 rfl rfl

/-- C7: over any data-row list, the bulk loop attempts exactly the valid
rows (every row that resolves to a plan has its send called, in input
order, whatever happened to earlier rows), and failedEmails is exactly
the recipients of the valid rows whose send-or-persist step raised — a
row's exception adds its recipient and the loop moves on. -/
theorem bulk_isolation (env : BulkEnv) (cs cm : Str) :
    ∀ (rows : List (List Str)) (idx : Nat) (s : DbState),
      (dispatchRows env cs cm idx s rows).2.1 =
        (indexedPlans cs cm idx rows).map (fun q => q.2.email) ∧
      (dispatchRows env cs cm idx s rows).2.2 =
        ((indexedPlans cs cm idx rows).filter fun q => rowRaised env q.1).map
          (fun q => q.2.email) := by
  intro rows
  induction rows with
  | nil =>
    intro idx s
    exact ⟨rfl, rfl⟩
  | cons row rest ih =>
    intro idx s
    cases hr : resolveRow cs cm row with
    | none =>
      have hrow : dispatchRow env cs cm idx s row = (s, [], []) := by
        simp [dispatchRow, hr]
      obtain ⟨ia, ifa⟩ := ih (idx + 1) s
      simp only [dispatchRows, indexedPlans, hr, hrow]
      exact ⟨by simpa using ia, by simpa using ifa⟩
    | some p =>
      have hca : (dispatchRow env cs cm idx s row).2.1 = [p.email] := by
        by_cases hs1 : env.sendFail idx = true
        · simp [dispatchRow, hr, hs1]
        · by_cases hs2 : env.pgFail idx = true
          · simp [dispatchRow, hr, hs1, hs2]
          · by_cases hs3 : env.fsFail idx = true
            · simp [dispatchRow, hr, hs1, hs2, hs3]
            · simp [dispatchRow, hr, hs1, hs2, hs3]
      have hcf : (dispatchRow env cs cm idx s row).2.2 =
          (if rowRaised env idx = true then [p.email] else []) := by
        by_cases hs1 : env.sendFail idx = true
        · simp [dispatchRow, hr, hs1, rowRaised]
        · by_cases hs2 : env.pgFail idx = true
          · simp [dispatchRow, hr, hs1, hs2, rowRaised]
          · by_cases hs3 : env.fsFail idx = true
            · simp [dispatchRow, hr, hs1, hs2, hs3, rowRaised]
            · simp [dispatchRow, hr, hs1, hs2, hs3, rowRaised]
      obtain ⟨ia, ifa⟩ := ih (idx + 1) (dispatchRow env cs cm idx s row).1
      simp only [dispatchRows, indexedPlans, hr]
      constructor
      · simp [hca, ia]
      · simp only [List.filter_cons]
        by_cases hrr : rowRaised env idx = true
        · simp [hcf, ifa, hrr]
        · simp [hcf, ifa, hrr]

/-- C8: row-shape resolution of the bulk loop — a 1-field row is a bare
recipient with the shared subject and body; a 2-field row is name and
recipient with the shared subject and body; a row of 4 or more fields is
name and recipient with per-row subject and body falling back to the
shared values when blank; empty and 3-field rows resolve to nothing, a
blank recipient resolves to nothing, and an unresolvable row is skipped
silently by the loop, attempted by nothing and failing nothing. -/
theorem rowShape_resolution (cs cm : Str) (a b c d : Str) (rest : List Str) :
    resolveRow cs cm [a] = (if a.isEmpty then none else some ⟨none, a, cs, cm⟩) ∧
    resolveRow cs cm [a, b] = (if b.isEmpty then none else some ⟨some a, b, cs, cm⟩) ∧
    resolveRow cs cm (a :: b :: c :: d :: rest) =
      (if b.isEmpty then none else some ⟨some a, b, jsOr c cs, jsOr d cm⟩) ∧
    resolveRow cs cm [] = none ∧
    resolveRow cs cm [a, b, c] = none ∧
    (∀ (env : BulkEnv) (idx : Nat) (s : DbState) (row : List Str),
      resolveRow cs cm row = none → dispatchRow env cs cm idx s row = (s, [], [])) := by
  have h1 : ¬((a :: b :: c :: d :: rest).length = 1) := by
    simp [List.length_cons]
  have h2 : ¬((a :: b :: c :: d :: rest).length = 2) := by
    simp [List.length_cons]
  have h3 : 4 ≤ (a :: b :: c :: d :: rest).length := by
    simp [List.length_cons]
  refine ⟨?_, ?_, ?_, rfl, ?_, ?_⟩
  · simp [resolveRow]
  · simp [resolveRow]
  · simp only [resolveRow, h1, h2, h3, if_neg, if_pos, if_true, if_false]
    simp [List.getD]
  · simp [resolveRow]
  · intro env idx s row hnone
    simp [dispatchRow, hnone]

/-- Fixture bulk environment in which nothing fails. -/
def envB0 : BulkEnv :=
  ⟨"me@gmail.com".data, 1000, "list.xlsx".data, fun _ => "5000000000".data,
   fun _ => false, fun _ => false, fun _ => false⟩

/-- C8 witnessed on a 3-field row, which is skipped silently. -/
theorem rowShape_resolution_wit :
    dispatchRow envB0 "S".data "B".data 0 dbEmpty
      ["x".data, "y".data, "z".data] = (dbEmpty, [], []) :=
  (rowShape_resolution "S".data "B".data "x".data "y".data "z".data "w".data
      []).2.2.2.2.2 envB0 0 dbEmpty ["x".data, "y".data, "z".data] (by decide)

/-- Fixture send environment drawing random id 5000000000. -/
def envC9a : SendEnv :=
  ⟨"me@gmail.com".data, 1000, "5000000000".data, some "Bob".data,
   "b@x.com".data, "Hi".data, "Body".data, none, false, false, false⟩

/-- Fixture send environment identical except the random draw is
7000000000. -/
def envC9b : SendEnv :=
  ⟨"me@gmail.com".data, 1000, "7000000000".data, some "Bob".data,
   "b@x.com".data, "Hi".data, "Body".data, none, false, false, false⟩

/-- Fixture: the relational row written by either send. -/
def rowC9 : SentRow :=
  ⟨1, some "Bob".data, "b@x.com".data, "Hi".data, "Body".data, none⟩

/-- Fixture: the document written under random id 5000000000. -/
def docC9a : SentDoc :=
  ⟨"5000000000".data, "me@gmail.com".data, "b@x.com".data, "Hi".data, "Body".data, 1000⟩

/-- Fixture: the document written under random id 7000000000. -/
def docC9b : SentDoc :=
  ⟨"7000000000".data, "me@gmail.com".data, "b@x.com".data, "Hi".data, "Body".data, 1000⟩

/-- Fixture: the database after the first send. -/
def dbC9a : DbState := ⟨[], [], [], [rowC9], 2, [("5000000000".data, docC9a)]⟩

/-- Fixture: the database after the other send. -/
def dbC9b : DbState := ⟨[], [], [], [rowC9], 2, [("7000000000".data, docC9b)]⟩

/-- C9 counterexample: a successful single send writes a relational row
whose id is the store's serial (1 on a fresh table) and a document whose
id is the generated random value; the row is byte-identical under two
different random draws, so it cannot carry the generated id, and the
claimed shared id fails concretely (the row id renders as 1, the
document id is 5000000000). -/
theorem sharedId_cex :
    sendSingle envC9a dbEmpty = .ok (dbC9a, docC9a) ∧
    sendSingle envC9b dbEmpty = .ok (dbC9b, docC9b) ∧
    dbC9a.sentRows = [rowC9] ∧ dbC9b.sentRows = [rowC9] ∧
    docC9a.id = "5000000000".data ∧ docC9b.id = "7000000000".data ∧
    natStr rowC9.id = "1".data ∧
    ¬ specSharedId rowC9 docC9a := by
  decide

/-- C9 amended: every successful outbound send — through the single-send
handler or through one bulk-dispatched row — creates exactly two records:
one relational row whose id is the store-assigned serial, and one
document keyed by the generated random id; the generated id appears only
on the document, the two copies agreeing on recipient, subject and
body. -/
theorem dualRecord_amended :
    (∀ (env : SendEnv) (s : DbState),
      env.sendFail = false → env.pgFail = false → env.fsFail = false →
      ∃ s1 d, sendSingle env s = .ok (s1, d) ∧
        s1.sentRows = s.sentRows ++
          [⟨s.sentSerial, env.name, env.email, env.subject, env.message, env.filename⟩] ∧
        s1.sentSerial = s.sentSerial + 1 ∧
        s1.sentDocs = docSet s.sentDocs env.genId d ∧
        d.id = env.genId ∧ d.toAddr = env.email ∧
        d.subject = env.subject ∧ d.message = env.message) ∧
    (∀ (benv : BulkEnv) (cs cm : Str) (idx : Nat) (bs : DbState)
        (row : List Str) (p : Plan),
      resolveRow cs cm row = some p →
      benv.sendFail idx = false → benv.pgFail idx = false → benv.fsFail idx = false →
      ∃ s2 d2, dispatchRow benv cs cm idx bs row = (s2, [p.email], []) ∧
        s2.sentRows = bs.sentRows ++
          [⟨bs.sentSerial, p.name, p.email, p.subject, p.message, some benv.fileName⟩] ∧
        s2.sentSerial = bs.sentSerial + 1 ∧
        s2.sentDocs = docSet bs.sentDocs (benv.genId idx) d2 ∧
        d2.id = benv.genId idx ∧ d2.toAddr = p.email ∧
        d2.subject = p.subject ∧ d2.message = p.message) := by
  constructor
  · intro env s h1 h2 h3
    unfold sendSingle
    simp only [h1, h2, h3, Bool.false_eq_true, if_false]
    exact ⟨_, _, rfl, rfl, rfl, rfl, rfl, rfl, rfl, rfl⟩
  · intro benv cs cm idx bs row p hr hb1 hb2 hb3
    unfold dispatchRow
    simp only [hr, hb1, hb2, hb3, Bool.false_eq_true, if_false]
    exact ⟨_, _, rfl, rfl, rfl, rfl, rfl, rfl, rfl, rfl⟩

/-- Fixture: the plan a 4-field bulk row resolves to. -/
def planC9 : Plan :=
  ⟨some "Bob".data, "b@x.com".data, "Hi".data, "Body".data⟩

/-- C9 amended, witnessed on a concrete single send and a concrete
bulk-dispatched row. -/
theorem dualRecord_amended_wit :
    (∃ s1 d, sendSingle envC9a dbEmpty = .ok (s1, d) ∧
      s1.sentRows = dbEmpty.sentRows ++
        [⟨dbEmpty.sentSerial, envC9a.name, envC9a.email, envC9a.subject,
          envC9a.message, envC9a.filename⟩] ∧
      s1.sentSerial = dbEmpty.sentSerial + 1 ∧
      s1.sentDocs = docSet dbEmpty.sentDocs envC9a.genId d ∧
      d.id = envC9a.genId ∧ d.toAddr = envC9a.email ∧
      d.subject = envC9a.subject ∧ d.message = envC9a.message) ∧
    (∃ s2 d2, dispatchRow envB0 "S".data "B".data 0 dbEmpty
        ["Bob".data, "b@x.com".data, "Hi".data, "Body".data] =
          (s2, [planC9.email], []) ∧
      s2.sentRows = dbEmpty.sentRows ++
        [⟨dbEmpty.sentSerial, planC9.name, planC9.email, planC9.subject,
          planC9.message, some envB0.fileName⟩] ∧
      s2.sentSerial = dbEmpty.sentSerial + 1 ∧
      s2.sentDocs = docSet dbEmpty.sentDocs (envB0.genId 0) d2 ∧
      d2.id = envB0.genId 0 ∧ d2.toAddr = planC9.email ∧
      d2.subject = planC9.subject ∧ d2.message = planC9.message) :=
  ⟨dualRecord_amended.1 envC9a dbEmpty rfl rfl rfl,
   dualRecord_amended.2 envB0 "S".data "B".data 0 dbEmpty
     ["Bob".data, "b@x.com".data, "Hi".data, "Body".data] planC9
     (by decide) rfl rfl rfl⟩

/-- C10: when the transport send raises, the single-send handler answers
the failure status with the database exactly as it was — neither the
relational row nor the document is written, because persistence only
starts after a successful send. -/
theorem transportFailure_noPersist (env : SendEnv) (s : DbState)
    (h : env.sendFail = true) :
    sendSingle env s = .error ("send failed".data, s) := by
  simp [sendSingle, h]

/-- Fixture send environment whose transport send raises. -/
def envC10 : SendEnv :=
  ⟨"me@gmail.com".data, 1000, "5000000000".data, some "Bob".data,
   "b@x.com".data, "Hi".data, "Body".data, none, true, false, false⟩

/-- C10 witnessed on the concrete failing transport. -/
theorem transportFailure_noPersist_wit :
    sendSingle envC10 dbEmpty = .error ("send failed".data, dbEmpty) :=
  transportFailure_noPersist envC10 dbEmpty rfl
